import Mathlib

/-!
Shallow embedding of `backend/app.py` from the AI-Powered Forensic Document
Summarization System.

The program delegates all NLP work to external libraries (spaCy, PyPDF2, a
summarization module and a preprocessing module). These externals are modelled
as oracle functions bundled in an `Env`; a call that may raise a Python
exception is modelled as returning `Except String α`, where `Except.error msg`
stands for an exception whose `str(e)` is `msg`. The original functions of the
repository (text extraction wrapper, metadata truncation, findings filter, the
orchestrator `analyze_document` and the Flask route) are translated directly.
-/

namespace ForensicApp

/-- Prefix test on character lists (helper for the Python string operators). -/
def charsPre : List Char → List Char → Bool
  | [], _ => true
  | _ :: _, [] => false
  | a :: as, b :: bs => a == b && charsPre as bs

/-- Substring (contiguous) test on character lists. -/
def charsSub (pat : List Char) : List Char → Bool
  | [] => charsPre pat []
  | c :: rest => charsPre pat (c :: rest) || charsSub pat rest

/-- Python `pat in s` on strings: contiguous substring containment. -/
def strContains (s pat : String) : Bool := charsSub pat.data s.data

/-- Python `s.endswith(suffix)`: suffix test on the character sequence. -/
def strEnds (s suffix : String) : Bool :=
  charsPre suffix.data.reverse s.data.reverse

/-- Python `s.lower()`, restricted to the ASCII range (the fixed keyword list
of the program is ASCII, so this is the only range that matters). -/
def strLower (s : String) : String := ⟨s.data.map Char.toLower⟩

/-- Splitting a character list on a separator character (helper for the
Python `s.split(sep)` used to derive the document id). -/
def charsSplit (sep : Char) : List Char → List (List Char)
  | [] => [[]]
  | c :: rest =>
    if c == sep then [] :: charsSplit sep rest
    else
      match charsSplit sep rest with
      | [] => [[c]]
      | g :: gs => (c :: g) :: gs

/-- Python `s.split(sep)` for a one-character separator. -/
def strSplit (s : String) (sep : Char) : List String :=
  (charsSplit sep s.data).map (fun cs => ⟨cs⟩)

/-- A spaCy token, with the two attributes the program reads. -/
structure Token where
  is_punct : Bool
  is_space : Bool
deriving DecidableEq

/-- A spaCy document: the tokens and the sentence segmentation, which is all
the program uses of `nlp(text)`. -/
structure Doc where
  tokens : List Token
  sents : List String
deriving DecidableEq

/-- The output of `extract_entities`: a mapping from entity label to list of
strings. A label absent from the Python dict behaves, in every use the
program makes of it, exactly like a label mapped to the empty list (for
`DATE`/`PERSON`/`ORG`/`GPE` the `.get(label, [])` default is `[]`; for
`CASE_ID` both the absent key and the empty list are falsy, so the same
branch is taken), so each label is modelled as a plain list. -/
structure Entities where
  DATE : List String
  CASE_ID : List String
  PERSON : List String
  ORG : List String
  GPE : List String
deriving DecidableEq

/-- The external collaborators of the program, as oracles. `readPages` stands
for `PyPDF2.PdfReader` plus the per-page `extract_text` calls: any exception
while opening, reading or extracting is an `Except.error`; success yields the
per-page texts in page order. `nlp` is the loaded spaCy model. `summarize`
takes `(text, method, top_n)`. -/
structure Env where
  readPages : String → Except String (List String)
  extract_entities : String → Except String Entities
  preprocess_text : String → Except String String
  summarize : String → String → Nat → Except String String
  nlp : String → Except String Doc

/-- `self.summary_method` as set in `ForensicDocumentAnalyzer.__init__`. -/
def summary_method : String := "hybrid"

/-- `ForensicDocumentAnalyzer.extract_text_from_pdf`: join the page texts;
any exception is swallowed and the empty string returned. -/
def extract_text_from_pdf (readPages : String → Except String (List String))
    (pdf_path : String) : String :=
  match readPages pdf_path with
  | .ok pages => String.join pages
  | .error _ => ""

/-- The metadata dict assembled by `extract_metadata` on success. -/
structure Metadata where
  dates : List String
  case_number : Option String
  people : List String
  organizations : List String
  locations : List String
deriving DecidableEq

/-- `ForensicDocumentAnalyzer.extract_metadata`. On an exception from
`extract_entities` it returns the error dict `{"error": str(e)}`, modelled as
`Except.error`. For `case_number` the source reads
`entities.get('CASE_ID', ['Unknown'])[0] if entities.get('CASE_ID') else None`:
the conditional is truthy only when `CASE_ID` is present and nonempty, in
which case the subscript yields the first element; otherwise the value is
`None`. The `['Unknown']` default of the `.get` is unreachable, because a
missing key makes the conditional falsy. -/
def extract_metadata (ee : String → Except String Entities) (text : String) :
    Except String Metadata :=
  match ee text with
  | .error e => .error e
  | .ok entities =>
    .ok { dates := entities.DATE.take 3
        , case_number :=
            match entities.CASE_ID with
            | [] => none
            | c :: _ => some c
        , people := entities.PERSON.take 5
        , organizations := entities.ORG.take 3
        , locations := entities.GPE.take 3 }

/-- The fixed keyword list of `extract_forensic_findings`. -/
def keywords : List String :=
  ["conclude", "conclusion", "finding", "results", "determine", "identified",
   "match", "consistent with", "evidence indicates", "analysis shows",
   "examination revealed", "tested positive", "comparison", "probability"]

/-- `any(keyword in sentence.lower() for keyword in keywords)`. -/
def sentenceMatches (sentence : String) : Bool :=
  keywords.any (fun keyword => strContains (strLower sentence) keyword)

/-- `ForensicDocumentAnalyzer.extract_forensic_findings`: collect, in document
order, the sentences of `nlp(text).sents` matching a keyword, then slice to
the first five. An exception (only `nlp(text)` can raise here) is swallowed
and the empty list returned. -/
def extract_forensic_findings (nlp : String → Except String Doc)
    (text : String) : List String :=
  match nlp text with
  | .error _ => []
  | .ok doc => (doc.sents.filter sentenceMatches).take 5

/-- The statistics record of the analysis result. -/
structure Statistics where
  word_count : Nat
  sentence_count : Nat
  summary_length : Nat
deriving DecidableEq

instance {ε α : Type} [DecidableEq ε] [DecidableEq α] :
    DecidableEq (Except ε α) := fun a b =>
  match a, b with
  | .ok x, .ok y =>
    if h : x = y then isTrue (congrArg Except.ok h)
    else isFalse (fun q => h (Except.ok.inj q))
  | .error x, .error y =>
    if h : x = y then isTrue (congrArg Except.error h)
    else isFalse (fun q => h (Except.error.inj q))
  | .ok _, .error _ => isFalse Except.noConfusion
  | .error _, .ok _ => isFalse Except.noConfusion

/-- The success dict returned by `analyze_document`. Its `metadata` field may
itself be the error dict produced inside `extract_metadata`, hence the
`Except` type of that field. -/
structure AnalysisResult where
  metadata : Except String Metadata
  summary : String
  key_findings : List String
  statistics : Statistics
deriving DecidableEq

/-- `ForensicDocumentAnalyzer.analyze_document`. Mirrors the source order:
extract text, fail fast on empty text, preprocess (result bound but unused),
metadata, summarize, findings, statistics. The outer `try/except` turns the
first uncaught exception into the error dict `{"error": str(e)}`, i.e.
`Except.error`. `extract_metadata` and `extract_forensic_findings` never
raise (each has its own handler), so the uncaught exceptions can come only
from `preprocess_text`, `summarize`, `nlp(text)` or `nlp(summary)`. -/
def analyze_document (env : Env) (file_path : String) (summary_length : Nat) :
    Except String AnalysisResult :=
  let text := extract_text_from_pdf env.readPages file_path
  if text = "" then .error "Could not extract text from PDF"
  else
    match env.preprocess_text text with
    | .error e => .error e
    | .ok _preprocessed_text =>
      let metadata := extract_metadata env.extract_entities text
      match env.summarize text summary_method summary_length with
      | .error e => .error e
      | .ok summary =>
        let findings := extract_forensic_findings env.nlp text
        match env.nlp text with
        | .error e => .error e
        | .ok doc =>
          match env.nlp summary with
          | .error e => .error e
          | .ok summary_doc =>
            .ok { metadata := metadata
                , summary := summary
                , key_findings := findings
                , statistics :=
                  { word_count :=
                      (doc.tokens.filter
                        (fun t => !t.is_punct && !t.is_space)).length
                  , sentence_count := doc.sents.length
                  , summary_length := summary_doc.tokens.length } }

/-- The `file` entry of `request.files`, with the only attribute read. -/
structure UploadedFile where
  filename : String
deriving DecidableEq

/-- A `POST /api/analyze` request: presence of the `file` part and the two
optional form fields. -/
structure AnalyzeRequest where
  file? : Option UploadedFile
  summary_detail? : Option String
  target_language? : Option String
deriving DecidableEq

/-- The `document` block added to a successful response. -/
structure DocumentInfo where
  filename : String
  analyzed_at : String
  id : String
deriving DecidableEq

/-- A JSON response body: either `{"error": msg}` or the full analysis result
with its `document` block. -/
inductive RespBody where
  | errorField (msg : String)
  | analysis (result : AnalysisResult) (document : DocumentInfo)
deriving DecidableEq

/-- Outcome of the filesystem operations of one request: whether `file.save`
raises (and its message), whether the file exists on disk after the save
attempt, and whether `os.remove` raises in the `finally` block. -/
structure FsOutcome where
  saveExc : Option String
  existsAfterSave : Bool
  removeExc : Option String
deriving DecidableEq

/-- The `summary_detail` → `summary_length` mapping of the route. -/
def summary_length_of (summary_detail : String) : Nat :=
  if summary_detail = "brief" then 3
  else if summary_detail = "standard" then 5
  else if summary_detail = "detailed" then 8
  else if summary_detail = "comprehensive" then 12
  else 5

/-- The `finally` block: if the file exists it is removed, and a failing
removal is logged only, leaving the file in place. Returns whether the file
still exists afterwards. -/
def cleanupExists (fs : FsOutcome) : Bool :=
  if fs.existsAfterSave then fs.removeExc.isSome else false

/-- The `POST /api/analyze` route handler. `generated_uuid` models
`str(uuid.uuid4())` and `now` models `datetime.datetime.now().isoformat()`.
Returns the pair (status code, body) and whether the saved file still exists
once the response is produced. The three validation branches mirror the
source: missing `file` part, empty filename, filename not ending in `.pdf`
(this last return sits outside the `try/finally`). -/
def analyze_document_route (env : Env) (fs : FsOutcome)
    (generated_uuid now : String) (req : AnalyzeRequest) :
    (Nat × RespBody) × Bool :=
  match req.file? with
  | none => ((400, .errorField "No file part"), false)
  | some file =>
    if file.filename = "" then ((400, .errorField "No selected file"), false)
    else if strEnds file.filename ".pdf" then
      let filename := generated_uuid ++ ".pdf"
      let file_path := "uploads/" ++ filename
      match fs.saveExc with
      | some e => ((500, .errorField e), cleanupExists fs)
      | none =>
        let summary_detail := (req.summary_detail?).getD "auto"
        let summary_length := summary_length_of summary_detail
        let _target_language := (req.target_language?).getD "original"
        match analyze_document env file_path summary_length with
        | .error msg => ((500, .errorField msg), cleanupExists fs)
        | .ok result =>
          ((200, .analysis result
              { filename := file.filename
              , analyzed_at := now
              , id := ((strSplit filename '.').headD "") }), cleanupExists fs)
    else ((400, .errorField "File must be a PDF"), false)

/-- Sample environment whose summarizer raises, echoing its `top_n` argument
as a run of that many `x` characters; every other collaborator succeeds.
Used to observe which target length the route hands to the summarizer. -/
def envEcho : Env :=
  { readPages := fun _ => .ok ["body text"]
  , extract_entities := fun _ => .ok ⟨[], [], [], [], []⟩
  , preprocess_text := fun t => .ok t
  , summarize := fun _ _ n => .error ⟨List.replicate n 'x'⟩
  , nlp := fun _ => .ok { tokens := [], sents := [] } }

/-- Sample environment where only the entity extractor raises. -/
def envMetaCrash : Env :=
  { readPages := fun _ => .ok ["body text"]
  , extract_entities := fun _ => .error "entity model crashed"
  , preprocess_text := fun t => .ok t
  , summarize := fun _ _ _ => .ok "summary"
  , nlp := fun _ => .ok { tokens := [], sents := [] } }

/-- Sample environment where only the text preprocessor raises. -/
def envPreCrash : Env :=
  { readPages := fun _ => .ok ["body text"]
  , extract_entities := fun _ => .ok ⟨[], [], [], [], []⟩
  , preprocess_text := fun _ => .error "bad unicode"
  , summarize := fun _ _ _ => .ok "summary"
  , nlp := fun _ => .ok { tokens := [], sents := [] } }

/-- Sample environment whose PDF reader raises on every path. -/
def envCorrupt : Env :=
  { readPages := fun _ => .error "corrupt file"
  , extract_entities := fun _ => .ok ⟨[], [], [], [], []⟩
  , preprocess_text := fun t => .ok t
  , summarize := fun _ _ _ => .ok "summary"
  , nlp := fun _ => .ok { tokens := [], sents := [] } }

/-- Filesystem outcome where both `file.save` and `os.remove` succeed. -/
def fsClean : FsOutcome :=
  { saveExc := none, existsAfterSave := true, removeExc := none }

/-- A request carrying a `.pdf` file named `report.pdf` together with the
given optional form fields. -/
def reqPdf (sd tl : Option String) : AnalyzeRequest :=
  { file? := some { filename := "report.pdf" }
  , summary_detail? := sd
  , target_language? := tl }

/-- C2: for every text whose segmentation the model delivers,
`extract_forensic_findings` returns exactly the first five sentences, in
document order, whose lowercased form contains one of the fixed keywords:
the result has length at most 5, is a sublist of the segmentation (order
preserved, first five matches, no other ranking), every returned sentence is
a sentence of the segmentation containing a keyword, and the keyword list
has exactly 14 terms. -/
theorem extract_forensic_findings_spec (nlp : String → Except String Doc)
    (text : String) (doc : Doc) (h : nlp text = .ok doc) :
    extract_forensic_findings nlp text =
      (doc.sents.filter sentenceMatches).take 5 ∧
    (extract_forensic_findings nlp text).length ≤ 5 ∧
    List.Sublist (extract_forensic_findings nlp text) doc.sents ∧
    (∀ s ∈ extract_forensic_findings nlp text,
      s ∈ doc.sents ∧ ∃ k ∈ keywords, strContains (strLower s) k = true) ∧
    keywords.length = 14 := by
  have he : extract_forensic_findings nlp text =
      (doc.sents.filter sentenceMatches).take 5 := by
    unfold extract_forensic_findings
    rw [h]
  refine ⟨he, ?_, ?_, ?_, rfl⟩
  · rw [he]
    exact List.length_take_le 5 _
  · rw [he]
    exact (List.take_sublist _ _).trans (List.filter_sublist _)
  · intro s hs
    rw [he] at hs
    have hs2 : s ∈ doc.sents.filter sentenceMatches :=
      (List.take_sublist _ _).subset hs
    have hm := List.mem_filter.mp hs2
    refine ⟨hm.1, ?_⟩
    have hb := hm.2
    unfold sentenceMatches at hb
    simpa using List.any_eq_true.mp hb

/-- Witness for C2: a concrete segmentation with one matching and one
non-matching sentence. -/
theorem extract_forensic_findings_spec_witness :
    extract_forensic_findings
        (fun _ => .ok ⟨[], ["We conclude it.", "Nothing here."]⟩) "doc" =
      ["We conclude it."] := by
  have h := extract_forensic_findings_spec
      (fun _ => .ok ⟨[], ["We conclude it.", "Nothing here."]⟩) "doc"
      ⟨[], ["We conclude it.", "Nothing here."]⟩ rfl
  rw [h.1]
  decide

/-- C3: whenever `extract_metadata` returns a metadata record, it holds at
most 3 dates, 5 people, 3 organizations and 3 locations, whatever the model
emitted. -/
theorem extract_metadata_truncates (ee : String → Except String Entities)
    (text : String) (m : Metadata) (h : extract_metadata ee text = .ok m) :
    m.dates.length ≤ 3 ∧ m.people.length ≤ 5 ∧
    m.organizations.length ≤ 3 ∧ m.locations.length ≤ 3 := by
  cases hE : ee text with
  | error e =>
    simp only [extract_metadata, hE] at h
    exact absurd h (by simp)
  | ok entities =>
    simp only [extract_metadata, hE] at h
    injection h with h2
    subst h2
    exact ⟨List.length_take_le _ _, List.length_take_le _ _,
      List.length_take_le _ _, List.length_take_le _ _⟩

/-- Witness for C3: the model emits 4 dates, 6 people, 4 organizations and
4 locations; the metadata is cut to 3, 5, 3, 3. -/
theorem extract_metadata_truncates_witness :
    (Metadata.mk ["d1", "d2", "d3"] (some "C-1") ["p1", "p2", "p3", "p4", "p5"]
        ["o1", "o2", "o3"] ["g1", "g2", "g3"]).dates.length ≤ 3 ∧
    (Metadata.mk ["d1", "d2", "d3"] (some "C-1") ["p1", "p2", "p3", "p4", "p5"]
        ["o1", "o2", "o3"] ["g1", "g2", "g3"]).people.length ≤ 5 ∧
    (Metadata.mk ["d1", "d2", "d3"] (some "C-1") ["p1", "p2", "p3", "p4", "p5"]
        ["o1", "o2", "o3"] ["g1", "g2", "g3"]).organizations.length ≤ 3 ∧
    (Metadata.mk ["d1", "d2", "d3"] (some "C-1") ["p1", "p2", "p3", "p4", "p5"]
        ["o1", "o2", "o3"] ["g1", "g2", "g3"]).locations.length ≤ 3 :=
  extract_metadata_truncates
    (fun _ => .ok ⟨["d1", "d2", "d3", "d4"], ["C-1"],
      ["p1", "p2", "p3", "p4", "p5", "p6"], ["o1", "o2", "o3", "o4"],
      ["g1", "g2", "g3", "g4"]⟩)
    "report" _ rfl

/-- C4 counterexample: when the extractor yields no CASE_ID entity, the
returned metadata carries `None` (modelled `none`) in `case_number`, not the
sentinel string "Unknown" the claim names — the `['Unknown']` default in the
source is unreachable behind the falsy conditional. -/
theorem case_number_absent_is_none :
    extract_metadata (fun _ => .ok ⟨[], [], [], [], []⟩) "report text" =
      .ok { dates := [], case_number := none, people := [], organizations := []
          , locations := [] } ∧
    (none : Option String) ≠ some "Unknown" :=
  ⟨rfl, by decide⟩

/-- C4 amended: `case_number` is the first CASE_ID entity when the extractor
yields at least one, and `None` (not an "Unknown" string) when it yields
none. -/
theorem case_number_spec (ee : String → Except String Entities) (text : String)
    (ents : Entities) (m : Metadata) (hE : ee text = .ok ents)
    (hm : extract_metadata ee text = .ok m) :
    m.case_number = ents.CASE_ID.head? ∧
    (ents.CASE_ID = [] → m.case_number = none) ∧
    (∀ c rest, ents.CASE_ID = c :: rest → m.case_number = some c) := by
  simp only [extract_metadata, hE] at hm
  injection hm with hm2
  subst hm2
  refine ⟨?_, ?_, ?_⟩
  · rcases hC : ents.CASE_ID with _ | ⟨c, rest⟩ <;> simp [hC]
  · intro hC
    simp [hC]
  · intro c rest hC
    simp [hC]

/-- Witness for the amended C4 at a two-entry CASE_ID list. -/
theorem case_number_spec_witness :
    (some "CASE-7" : Option String) = ["CASE-7", "CASE-8"].head? :=
  (case_number_spec (fun _ => .ok ⟨[], ["CASE-7", "CASE-8"], [], [], []⟩) "t"
    ⟨[], ["CASE-7", "CASE-8"], [], [], []⟩
    { dates := [], case_number := some "CASE-7", people := []
    , organizations := [], locations := [] }
    rfl rfl).1

/-- C5: the `summary_detail` field maps brief to 3, standard to 5, detailed
to 8, comprehensive to 12, and any other or missing value to 5; and the route
passes exactly that value as the top_n of the summarizer, observed through a
summarizer that echoes its top_n as a run of that many x characters. -/
theorem summary_detail_mapping :
    (∀ sd? : Option String,
        summary_length_of ((sd?).getD "auto") =
          if sd? = some "brief" then 3
          else if sd? = some "standard" then 5
          else if sd? = some "detailed" then 8
          else if sd? = some "comprehensive" then 12
          else 5) ∧
    (analyze_document_route envEcho fsClean "u" "t"
        (reqPdf (some "brief") none)).fst = (500, .errorField "xxx") ∧
    (analyze_document_route envEcho fsClean "u" "t"
        (reqPdf (some "standard") none)).fst = (500, .errorField "xxxxx") ∧
    (analyze_document_route envEcho fsClean "u" "t"
        (reqPdf (some "detailed") none)).fst =
      (500, .errorField "xxxxxxxx") ∧
    (analyze_document_route envEcho fsClean "u" "t"
        (reqPdf (some "comprehensive") none)).fst =
      (500, .errorField "xxxxxxxxxxxx") ∧
    (analyze_document_route envEcho fsClean "u" "t"
        (reqPdf none none)).fst = (500, .errorField "xxxxx") ∧
    (analyze_document_route envEcho fsClean "u" "t"
        (reqPdf (some "unrecognized") none)).fst =
      (500, .errorField "xxxxx") := by
  refine ⟨?_, rfl, rfl, rfl, rfl, rfl, rfl⟩
  intro sd?
  cases sd? with
  | none => decide
  | some s => simp [summary_length_of]

/-- C6: `extract_text_from_pdf` returns the page texts joined in page order
on success and the empty string on any reader failure (it never raises), and
`analyze_document` fails fast with the error result whenever the extracted
text is empty. -/
theorem extract_text_and_fail_fast :
    (∀ (rp : String → Except String (List String)) (p : String)
        (pages : List String),
        rp p = .ok pages → extract_text_from_pdf rp p = String.join pages) ∧
    (∀ (rp : String → Except String (List String)) (p e : String),
        rp p = .error e → extract_text_from_pdf rp p = "") ∧
    (∀ (env : Env) (p : String) (n : Nat),
        extract_text_from_pdf env.readPages p = "" →
        analyze_document env p n =
          .error "Could not extract text from PDF") := by
  refine ⟨?_, ?_, ?_⟩
  · intro rp p pages h
    simp [extract_text_from_pdf, h]
  · intro rp p e h
    simp [extract_text_from_pdf, h]
  · intro env p n h
    simp [analyze_document, h]

/-- Witness for C6: two pages are joined in order; a raising reader yields
the empty string; an environment with a corrupt PDF makes the analysis fail
fast. -/
theorem extract_text_and_fail_fast_witness :
    extract_text_from_pdf (fun _ => .ok ["page one ", "page two"]) "f.pdf" =
      "page one page two" ∧
    extract_text_from_pdf (fun _ => .error "corrupt file") "f.pdf" = "" ∧
    analyze_document envCorrupt "f.pdf" 5 =
      .error "Could not extract text from PDF" := by
  refine ⟨?_, ?_, ?_⟩
  · rw [extract_text_and_fail_fast.1 (fun _ => .ok ["page one ", "page two"])
      "f.pdf" ["page one ", "page two"] rfl]
    decide
  · exact extract_text_and_fail_fast.2.1 (fun _ => .error "corrupt file")
      "f.pdf" "corrupt file" rfl
  · exact extract_text_and_fail_fast.2.2 envCorrupt "f.pdf" 5 rfl

/-- C7: the route rejects a request without a file part with
400 No file part, an empty filename with 400 No selected file, and a
filename not ending in .pdf with 400 File must be a PDF; in each case the
response is the same for every environment (no analysis runs) and no file is
left behind. -/
theorem upload_validation_400 :
    (∀ (env : Env) (fs : FsOutcome) (u now : String) (sd tl : Option String),
        analyze_document_route env fs u now ⟨none, sd, tl⟩ =
          ((400, .errorField "No file part"), false)) ∧
    (∀ (env : Env) (fs : FsOutcome) (u now : String) (sd tl : Option String),
        analyze_document_route env fs u now ⟨some ⟨""⟩, sd, tl⟩ =
          ((400, .errorField "No selected file"), false)) ∧
    (∀ (env : Env) (fs : FsOutcome) (u now : String) (f : UploadedFile)
        (sd tl : Option String),
        f.filename ≠ "" → strEnds f.filename ".pdf" = false →
        analyze_document_route env fs u now ⟨some f, sd, tl⟩ =
          ((400, .errorField "File must be a PDF"), false)) := by
  refine ⟨fun env fs u now sd tl => rfl, ?_, ?_⟩
  · intro env fs u now sd tl
    simp [analyze_document_route]
  · intro env fs u now f sd tl h1 h2
    simp [analyze_document_route, h1, h2]

/-- Witness for C7: a `.txt` upload is rejected as not a PDF. -/
theorem upload_validation_400_witness :
    analyze_document_route envEcho fsClean "u" "t" ⟨some ⟨"notes.txt"⟩, none, none⟩ =
      ((400, .errorField "File must be a PDF"), false) :=
  upload_validation_400.2.2 envEcho fsClean "u" "t" ⟨"notes.txt"⟩ none none
    (by decide) (by decide)

/-- C8: whenever `os.remove` does not raise, the uploaded file no longer
exists after the response, on every path (success, error result, save
exception, and the validation paths on which nothing was saved); and the
response itself never depends on the outcome of the removal. -/
theorem uploaded_file_cleanup :
    (∀ (env : Env) (fs : FsOutcome) (u now : String) (req : AnalyzeRequest),
        fs.removeExc = none →
        (analyze_document_route env fs u now req).snd = false) ∧
    (∀ (env : Env) (fs : FsOutcome) (u now : String) (req : AnalyzeRequest)
        (r1 r2 : Option String),
        (analyze_document_route env { fs with removeExc := r1 } u now req).fst =
          (analyze_document_route env { fs with removeExc := r2 } u now req).fst)
    := by
  constructor
  · intro env fs u now req h
    have hc : cleanupExists fs = false := by
      cases he : fs.existsAfterSave <;> simp [cleanupExists, he, h]
    rcases req with ⟨f?, sd, tl⟩
    cases f? with
    | none => rfl
    | some f =>
      simp only [analyze_document_route]
      by_cases h1 : f.filename = ""
      · simp [h1]
      · by_cases h2 : strEnds f.filename ".pdf"
        · simp only [h1, h2, if_false, if_true]
          cases hs : fs.saveExc with
          | some e => simpa using hc
          | none =>
            cases ha : analyze_document env ("uploads/" ++ (u ++ ".pdf"))
                (summary_length_of ((sd).getD "auto")) <;> simp [ha, hc]
        · simp [h1, h2]
  · intro env fs u now req r1 r2
    rcases req with ⟨f?, sd, tl⟩
    cases f? with
    | none => rfl
    | some f =>
      simp only [analyze_document_route]
      by_cases h1 : f.filename = ""
      · simp [h1]
      · by_cases h2 : strEnds f.filename ".pdf"
        · simp only [h1, h2, if_false, if_true]
          cases hs : fs.saveExc with
          | some e => rfl
          | none =>
            cases ha : analyze_document env ("uploads/" ++ (u ++ ".pdf"))
                (summary_length_of ((sd).getD "auto")) <;> simp [ha]
        · simp [h1, h2]

/-- Witness for C8: a clean filesystem run leaves no file behind. -/
theorem uploaded_file_cleanup_witness :
    (analyze_document_route envEcho fsClean "u" "t" (reqPdf none none)).snd =
      false :=
  uploaded_file_cleanup.1 envEcho fsClean "u" "t" (reqPdf none none) rfl

/-- C9: the `target_language` form field is read and discarded, so two
requests identical but for that field produce identical responses — in
particular identical metadata, summary, key findings and statistics. -/
theorem target_language_inert (env : Env) (fs : FsOutcome) (u now : String)
    (req : AnalyzeRequest) (tl : Option String) :
    analyze_document_route env fs u now { req with target_language? := tl } =
      analyze_document_route env fs u now req := by
  rcases req with ⟨f?, sd, tl0⟩
  cases f? <;> rfl

/-- C10: the value returned by `preprocess_text` is bound and never used, so
as long as preprocessing returns normally its result has no effect on the
analysis: two environments differing only in the (non-raising) preprocessor
produce identical analysis results. -/
theorem preprocessed_value_inert (env : Env) (p : String) (n : Nat)
    (f g : String → Except String String)
    (hf : ∀ t, ∃ v, f t = .ok v) (hg : ∀ t, ∃ v, g t = .ok v) :
    analyze_document { env with preprocess_text := f } p n =
      analyze_document { env with preprocess_text := g } p n := by
  obtain ⟨v, hv⟩ := hf (extract_text_from_pdf env.readPages p)
  obtain ⟨w, hw⟩ := hg (extract_text_from_pdf env.readPages p)
  by_cases h0 : extract_text_from_pdf env.readPages p = ""
  · simp [analyze_document, h0]
  · simp [analyze_document, h0, hv, hw]

/-- Witness for C10: two preprocessors returning different strings yield the
same analysis result. -/
theorem preprocessed_value_inert_witness :
    analyze_document { envEcho with preprocess_text := fun _ => .ok "cleaned" }
        "f.pdf" 5 =
      analyze_document
        { envEcho with preprocess_text := fun _ => .ok "RAW NOISE" }
        "f.pdf" 5 :=
  preprocessed_value_inert envEcho "f.pdf" 5 (fun _ => .ok "cleaned")
    (fun _ => .ok "RAW NOISE")
    (fun _ => ⟨"cleaned", rfl⟩) (fun _ => ⟨"RAW NOISE", rfl⟩)

/-- C1 counterexample: an internal exception in the metadata-extraction stage
is swallowed inside `extract_metadata` and stored as the `metadata` field of
an otherwise ordinary result; the top-level result dict has no `error` key,
so the route answers 200 — not the 500 with the message in the error field
that the claim requires. -/
theorem metadata_stage_exception_yields_200 :
    envMetaCrash.extract_entities "body text" = .error "entity model crashed" ∧
    (analyze_document_route envMetaCrash fsClean "u0" "t0"
        (reqPdf none none)).fst =
      (200, .analysis
        { metadata := .error "entity model crashed", summary := "summary"
        , key_findings := []
        , statistics :=
          { word_count := 0, sentence_count := 0, summary_length := 0 } }
        { filename := "report.pdf", analyzed_at := "t0", id := "u0" }) :=
  ⟨rfl, rfl⟩

/-- C1 amended: an exception that reaches the outer handler of
`analyze_document` — one raised by the preprocessor, the summarizer, the
statistics `nlp(text)` call (which is also where a findings-stage `nlp`
failure resurfaces) or `nlp(summary)` — is converted into the error result,
and the route turns any error result into a 500 whose body carries the
message in its error field. An exception inside metadata extraction is
instead caught locally: the result is a success whose `metadata` field holds
the message, served with status 200. The handler never faults: every
response status is 200, 400 or 500. -/
theorem pipeline_exception_propagation :
    (∀ (env : Env) (fs : FsOutcome) (u now : String) (req : AnalyzeRequest)
        (f : UploadedFile) (msg : String),
        req.file? = some f → f.filename ≠ "" →
        strEnds f.filename ".pdf" = true → fs.saveExc = none →
        analyze_document env ("uploads/" ++ (u ++ ".pdf"))
            (summary_length_of ((req.summary_detail?).getD "auto")) =
          .error msg →
        (analyze_document_route env fs u now req).fst =
          (500, .errorField msg)) ∧
    (∀ (env : Env) (p : String) (n : Nat) (e : String),
        extract_text_from_pdf env.readPages p ≠ "" →
        env.preprocess_text (extract_text_from_pdf env.readPages p) =
          .error e →
        analyze_document env p n = .error e) ∧
    (∀ (env : Env) (p : String) (n : Nat) (v e : String),
        extract_text_from_pdf env.readPages p ≠ "" →
        env.preprocess_text (extract_text_from_pdf env.readPages p) = .ok v →
        env.summarize (extract_text_from_pdf env.readPages p)
            summary_method n = .error e →
        analyze_document env p n = .error e) ∧
    (∀ (env : Env) (p : String) (n : Nat) (v s e : String),
        extract_text_from_pdf env.readPages p ≠ "" →
        env.preprocess_text (extract_text_from_pdf env.readPages p) = .ok v →
        env.summarize (extract_text_from_pdf env.readPages p)
            summary_method n = .ok s →
        env.nlp (extract_text_from_pdf env.readPages p) = .error e →
        analyze_document env p n = .error e) ∧
    (∀ (env : Env) (p : String) (n : Nat) (v s e : String) (doc : Doc),
        extract_text_from_pdf env.readPages p ≠ "" →
        env.preprocess_text (extract_text_from_pdf env.readPages p) = .ok v →
        env.summarize (extract_text_from_pdf env.readPages p)
            summary_method n = .ok s →
        env.nlp (extract_text_from_pdf env.readPages p) = .ok doc →
        env.nlp s = .error e →
        analyze_document env p n = .error e) ∧
    (∀ (env : Env) (p : String) (n : Nat) (v s em : String) (doc sdoc : Doc),
        extract_text_from_pdf env.readPages p ≠ "" →
        env.preprocess_text (extract_text_from_pdf env.readPages p) = .ok v →
        env.extract_entities (extract_text_from_pdf env.readPages p) =
          .error em →
        env.summarize (extract_text_from_pdf env.readPages p)
            summary_method n = .ok s →
        env.nlp (extract_text_from_pdf env.readPages p) = .ok doc →
        env.nlp s = .ok sdoc →
        analyze_document env p n = .ok
          { metadata := .error em, summary := s
          , key_findings := (doc.sents.filter sentenceMatches).take 5
          , statistics :=
            { word_count := (doc.tokens.filter
                (fun t => !t.is_punct && !t.is_space)).length
            , sentence_count := doc.sents.length
            , summary_length := sdoc.tokens.length } }) ∧
    (∀ (env : Env) (fs : FsOutcome) (u now : String) (req : AnalyzeRequest),
        (analyze_document_route env fs u now req).fst.fst = 200 ∨
        (analyze_document_route env fs u now req).fst.fst = 400 ∨
        (analyze_document_route env fs u now req).fst.fst = 500) := by
  refine ⟨?_, ?_, ?_, ?_, ?_, ?_, ?_⟩
  · intro env fs u now req f msg hf h1 h2 hs ha
    rcases req with ⟨f?, sd, tl⟩
    cases hf
    simp [analyze_document_route, h1, h2, hs, ha]
  · intro env p n e h0 h1
    simp [analyze_document, h0, h1]
  · intro env p n v e h0 h1 h2
    simp [analyze_document, h0, h1, h2]
  · intro env p n v s e h0 h1 h2 h3
    simp [analyze_document, h0, h1, h2, h3, extract_forensic_findings]
  · intro env p n v s e doc h0 h1 h2 h3 h4
    simp [analyze_document, h0, h1, h2, h3, h4]
  · intro env p n v s em doc sdoc h0 h1 h2 h3 h4 h5
    simp [analyze_document, extract_metadata, extract_forensic_findings,
      h0, h1, h2, h3, h4, h5]
  · intro env fs u now req
    rcases req with ⟨f?, sd, tl⟩
    cases f? with
    | none => simp [analyze_document_route]
    | some f =>
      simp only [analyze_document_route]
      by_cases h1 : f.filename = ""
      · simp [h1]
      · by_cases h2 : strEnds f.filename ".pdf"
        · simp only [h1, h2, if_false, if_true]
          cases hs : fs.saveExc with
          | some e => simp
          | none =>
            cases ha : analyze_document env ("uploads/" ++ (u ++ ".pdf"))
                (summary_length_of ((sd).getD "auto")) <;> simp [ha]
        · simp [h1, h2]

/-- Witness for the amended C1: the echoing summarizer produces a 500 whose
body carries its message; a raising preprocessor errors the analysis; a
raising entity extractor leaves the analysis successful with the message in
the metadata field. -/
theorem pipeline_exception_propagation_witness :
    (analyze_document_route envEcho fsClean "u" "t" (reqPdf none none)).fst =
      (500, .errorField "xxxxx") ∧
    analyze_document envPreCrash "f.pdf" 5 = .error "bad unicode" ∧
    analyze_document envMetaCrash "f.pdf" 5 = .ok
      { metadata := .error "entity model crashed", summary := "summary"
      , key_findings := []
      , statistics :=
        { word_count := 0, sentence_count := 0, summary_length := 0 } } := by
  refine ⟨?_, ?_, ?_⟩
  · exact pipeline_exception_propagation.1 envEcho fsClean "u" "t"
      (reqPdf none none) ⟨"report.pdf"⟩ "xxxxx" rfl (by decide) (by decide)
      rfl rfl
  · exact pipeline_exception_propagation.2.1 envPreCrash "f.pdf" 5
      "bad unicode" (by decide) rfl
  · exact pipeline_exception_propagation.2.2.2.2.2.1 envMetaCrash "f.pdf" 5
      "body text" "summary" "entity model crashed" ⟨[], []⟩ ⟨[], []⟩
      (by decide) rfl rfl rfl rfl rfl

end ForensicApp
